import Mathlib

/-!
Shallow embedding of `src/main.py`, a geospatial ETL pipeline: it loads two
vector layers (land use, watercourses) from PostgreSQL, buffers the
watercourses, intersects the buffers with the land-use polygons, and writes
the result to a database table and to a CSV file.

The script delegates all geometry to geopandas/shapely and all persistence to
sqlalchemy/pandas.  The embedding keeps the script's own control flow exact
(including its Python exception semantics) and models the delegated library
calls as follows:

* geometry operations are a `GeomOps` record (reprojection, buffer,
  intersection, area test, text serialization); a concrete rectilinear
  instance `rectOps` is provided for evaluation;
* the database is an association list of named tables; `read_postgis` and
  `to_postgis` are modelled from the geopandas documentation;
* outcomes of calls that can fail for environmental reasons (engine creation,
  the database write, the file write) are supplied as `Except` oracles.

A faithful point: the module imports only `create_engine` from sqlalchemy
(src/main.py line 4), so the name `SQLAlchemyError` used in the except clauses
at lines 25 and 87 is unbound; per Python semantics, evaluating such an except
clause raises `NameError`, replacing the original exception and skipping the
`logging.error` call.  This is captured by `tryLogReraise` together with the
explicit module namespace `moduleNames`.
-/

namespace SpatialPipeline

/-- Exception values that can arise in the script: SQLAlchemy errors (engine,
query and database-write failures), `NameError` (unbound name), `IOError`
(file-write failures) and other `Exception` subclasses. -/
inductive PyExc where
  | sqlalchemy (msg : String)
  | nameError (missing : String)
  | ioError (msg : String)
  | generic (msg : String)
deriving DecidableEq

/-- The `str(e)` text used when an exception is interpolated into a log line. -/
def excMsg : PyExc → String
  | .sqlalchemy m => m
  | .nameError n => "name " ++ n ++ " is not defined"
  | .ioError m => m
  | .generic m => m

/-- One line of `application.log`, at level INFO or ERROR. -/
inductive LogEntry where
  | info (msg : String)
  | error (msg : String)
deriving DecidableEq

/-- Names bound in the module namespace of `src/main.py`: the imports of lines
1-5 and the six function definitions.  `SQLAlchemyError`, used by the except
clauses at lines 25 and 87, is NOT among them: line 4 imports only
`create_engine` from sqlalchemy. -/
def moduleNames : List String :=
  ["gpd", "psycopg2", "sql", "create_engine", "logging",
   "get_engine", "load_vector_layer", "apply_buffer_and_intersect",
   "save_geodataframe_to_postgresql", "save_geodataframe_to_csv", "main"]

/-- Python builtin exception class names, visible without any import. -/
def builtinExcNames : List String :=
  ["BaseException", "Exception", "IOError", "OSError", "ValueError",
   "TypeError", "NameError", "KeyError", "RuntimeError"]

/-- Whether a name used in an except clause resolves (module namespace or
builtins). -/
def nameBound (n : String) : Bool :=
  moduleNames.contains n || builtinExcNames.contains n

/-- Semantics of the script's uniform handler pattern
`try: BODY ... except CLS as e: logging.error(MSG); raise`.
If BODY succeeds, the success log lines are emitted and the value returned.
If BODY raises and the name CLS is unbound, evaluating the except clause
itself raises `NameError CLS`, which replaces the original exception and skips
the log call.  If CLS is bound and the exception matches it, the error is
logged and re-raised unchanged; if it does not match, the exception propagates
unchanged with no log line from this handler. -/
def tryLogReraise (body : Except PyExc α) (clsBound : Bool) (cls : String)
    (clsMatches : PyExc → Bool) (okLog : α → List LogEntry)
    (errMsg : PyExc → String) : List LogEntry × Except PyExc α :=
  match body with
  | .ok a => (okLog a, .ok a)
  | .error e =>
    if clsBound then
      if clsMatches e then ([LogEntry.error (errMsg e)], .error e)
      else ([], .error e)
    else ([], .error (.nameError cls))

/-- Exception-class membership test for `SQLAlchemyError`. -/
def isSQLAlchemyErr : PyExc → Bool
  | .sqlalchemy _ => true
  | _ => false

/-- Exception-class membership test for `Exception`: every `PyExc` here is an
`Exception` subclass. -/
def isExceptionSub : PyExc → Bool := fun _ => true

/-- Exception-class membership test for `IOError` (alias of `OSError`). -/
def isIOErr : PyExc → Bool
  | .ioError _ => true
  | _ => false

/-- A SQLAlchemy engine handle, as produced by `create_engine(db_url)`. -/
structure Engine where
  url : String
deriving DecidableEq

/-- Embedding of `get_engine` (src/main.py lines 14-27).
`createEngineOutcome` is the outcome of the `create_engine(db_url)` library
call.  The except clause at line 25 names `SQLAlchemyError`, which is unbound
in the module namespace. -/
def get_engine (createEngineOutcome : Except PyExc Engine) :
    List LogEntry × Except PyExc Engine :=
  tryLogReraise createEngineOutcome (nameBound "SQLAlchemyError")
    "SQLAlchemyError" isSQLAlchemyErr
    (fun _ => [LogEntry.info "Database engine created successfully."])
    (fun e => "Failed to create database engine: " ++ excMsg e)

/-- A geometry collection: ordered records, each a list of attribute values
(aligned with `cols`) plus one geometry, all sharing one CRS. -/
structure GeoDataFrame (G : Type) where
  cols : List String
  rows : List (List String × G)
  crs : Option Nat
deriving DecidableEq

/-- The PostgreSQL database, as the script sees it: named geometry tables. -/
structure Database (G : Type) where
  tables : List (String × GeoDataFrame G)
deriving DecidableEq

/-- Look a table up by name. -/
def dbLookup (db : Database G) (tname : String) : Option (GeoDataFrame G) :=
  (db.tables.find? (fun p => p.1 == tname)).map (fun p => p.2)

/-- Modelled from the geopandas documentation of `read_postgis` with a
`SELECT * FROM t` query: the whole named table is materialized as a
GeoDataFrame; a missing table raises a ProgrammingError, which is a
`SQLAlchemyError` (hence an `Exception`). -/
def read_postgis (db : Database G) (tname : String) :
    Except PyExc (GeoDataFrame G) :=
  match dbLookup db tname with
  | some t => .ok t
  | none => .error (.sqlalchemy ("relation " ++ tname ++ " does not exist"))

/-- Embedding of `load_vector_layer` (src/main.py lines 29-45): runs
`read_postgis` and wraps it in the log-and-reraise pattern with the bound
class `Exception`. -/
def load_vector_layer (db : Database G) (tname : String) :
    List LogEntry × Except PyExc (GeoDataFrame G) :=
  tryLogReraise (read_postgis db tname) (nameBound "Exception") "Exception"
    isExceptionSub
    (fun _ => [LogEntry.info ("Loaded vector layer " ++ tname ++ " successfully.")])
    (fun e => "Failed to load vector layer " ++ tname ++ ": " ++ excMsg e)

/-- The geometry operations the script delegates to geopandas/shapely:
reprojection to a target CRS, outward buffering by a distance, geometric
intersection, the polygonal non-emptiness test used by the overlay (with its
default `keep_geom_type`, only intersections of positive area survive), and
text serialization for the CSV writer. -/
structure GeomOps (G : Type) where
  toCrs : Option Nat → G → G
  buffer : Int → G → G
  inter : G → G → G
  hasArea : G → Bool
  wkt : G → String

/-- Modelled from geopandas `GeoDataFrame.to_crs(target)`: every geometry is
reprojected and the collection's CRS becomes the target; attributes, record
count and order are unchanged. -/
def gdfToCrs (ops : GeomOps G) (target : Option Nat) (gdf : GeoDataFrame G) :
    GeoDataFrame G :=
  ⟨gdf.cols, gdf.rows.map (fun r => (r.1, ops.toCrs target r.2)), target⟩

/-- The CRS check of src/main.py lines 58-60: the watercourses layer is
reprojected into the land-use CRS exactly when the two CRS differ. -/
def crsAdjust (ops : GeomOps G) (landCrs : Option Nat) (w : GeoDataFrame G) :
    GeoDataFrame G :=
  if landCrs ≠ w.crs then gdfToCrs ops landCrs w else w

/-- The buffer step of src/main.py line 63: `watercourses_gdf.buffer(d)`
returns the plain sequence of buffered geometries, one per record, in record
order, with no dissolve and with all attribute columns left behind. -/
def bufferSeries (ops : GeomOps G) (d : Int) (gdf : GeoDataFrame G) : List G :=
  gdf.rows.map (fun r => ops.buffer d r.2)

/-- The reconstruction of src/main.py line 66:
`gpd.GeoDataFrame(geometry=series, crs=c)` builds a frame with a geometry
column only — no attribute columns at all. -/
def geometryOnlyGdf (geoms : List G) (c : Option Nat) : GeoDataFrame G :=
  ⟨[], geoms.map (fun g => ([], g)), c⟩

/-- Column-name conflict suffixing used by the overlay: a column shared with
the other input gets the given suffix. -/
def suffixIfShared (other : List String) (tag : String) (c : String) : String :=
  if other.contains c then c ++ tag else c

/-- The attribute columns of an overlay result: both inputs' columns, with
`_1` / `_2` appended on a name collision. -/
def overlayCols (ca cb : List String) : List String :=
  ca.map (suffixIfShared cb "_1") ++ cb.map (suffixIfShared ca "_2")

/-- Modelled from the geopandas documentation of
`overlay(a, b, how=intersection)` (with its default `keep_geom_type`): one
output record per pair of input records whose geometric intersection is
non-empty as a surface, carrying both records' attribute values and the
intersected geometry; the result inherits the first frame's CRS. -/
def overlayIntersection (ops : GeomOps G) (a b : GeoDataFrame G) :
    GeoDataFrame G :=
  ⟨overlayCols a.cols b.cols,
   a.rows.flatMap (fun ra => b.rows.filterMap (fun rb =>
     if ops.hasArea (ops.inter ra.2 rb.2) then
       some (ra.1 ++ rb.1, ops.inter ra.2 rb.2)
     else none)),
   a.crs⟩

/-- Embedding of `apply_buffer_and_intersect` (src/main.py lines 47-74):
CRS adjustment of the watercourses (lines 58-60), buffering (line 63),
reconstruction as a geometry-only frame in the land-use CRS (line 66), and
the intersection overlay against the land-use layer (line 69). -/
def apply_buffer_and_intersect (ops : GeomOps G)
    (land_use_gdf watercourses_gdf : GeoDataFrame G) (buffer_distance : Int) :
    GeoDataFrame G :=
  overlayIntersection ops land_use_gdf
    (geometryOnlyGdf
      (bufferSeries ops buffer_distance
        (crsAdjust ops land_use_gdf.crs watercourses_gdf))
      land_use_gdf.crs)

/-- The log lines produced by a (successful) run of
`apply_buffer_and_intersect`: the CRS-adjustment line exactly when the CRS
differ, then the success line. -/
def transformLogs (landCrs wCrs : Option Nat) : List LogEntry :=
  (if landCrs ≠ wCrs then [LogEntry.info "CRS adjusted to match between layers."]
   else []) ++ [LogEntry.info "Applied buffer and intersection successfully."]

/-- Modelled from the geopandas/pandas documentation of
`to_postgis(name, con, if_exists=replace, index=False)`: any same-named
pre-existing table is dropped, a fresh table is created from the frame's
column types, and all the frame's records are inserted. -/
def to_postgis (gdf : GeoDataFrame G) (db : Database G) (tname : String) :
    Database G :=
  ⟨(tname, gdf) :: db.tables.filter (fun p => !(p.1 == tname))⟩

/-- Embedding of `save_geodataframe_to_postgresql` (src/main.py lines 76-89).
`writeOutcome` is the environmental outcome of the `to_postgis` call (ok, or a
raised database error).  The except clause at line 87 names `SQLAlchemyError`,
which is unbound in the module namespace. -/
def save_geodataframe_to_postgresql (gdf : GeoDataFrame G) (db : Database G)
    (tname : String) (writeOutcome : Except PyExc Unit) :
    List LogEntry × Except PyExc (Database G) :=
  tryLogReraise (writeOutcome.map (fun _ => to_postgis gdf db tname))
    (nameBound "SQLAlchemyError") "SQLAlchemyError" isSQLAlchemyErr
    (fun _ => [LogEntry.info ("Data saved to PostgreSQL table: " ++ tname)])
    (fun e => "Failed to save GeoDataFrame to PostgreSQL: " ++ excMsg e)

/-- Modelled from pandas `to_csv(path, index=False)`: a header row with every
column name (attributes then the geometry column), then one row per record
with the attribute values and the geometry serialized to text, comma-joined,
newline-separated. -/
def csvString (ops : GeomOps G) (gdf : GeoDataFrame G) : String :=
  String.intercalate "\n"
    (String.intercalate "," (gdf.cols ++ ["geometry"]) ::
     gdf.rows.map (fun r => String.intercalate "," (r.1 ++ [ops.wkt r.2])))

/-- Embedding of `save_geodataframe_to_csv` (src/main.py lines 91-103).
`writeOutcome` is the environmental outcome of the `to_csv` call; on success
the produced file content is returned.  The handler catches only `IOError`
(which is bound: it is a builtin). -/
def save_geodataframe_to_csv (ops : GeomOps G) (gdf : GeoDataFrame G)
    (writeOutcome : Except PyExc Unit) : List LogEntry × Except PyExc String :=
  tryLogReraise (writeOutcome.map (fun _ => csvString ops gdf))
    (nameBound "IOError") "IOError" isIOErr
    (fun _ => [LogEntry.info "Data saved to CSV file."])
    (fun e => "Failed to save GeoDataFrame to CSV: " ++ excMsg e)

/-- The six steps of the pipeline, in the order `main` runs them
(src/main.py lines 116-129). -/
inductive Step where
  | engine
  | loadLand
  | loadWater
  | transform
  | saveDb
  | saveCsv
deriving DecidableEq

/-- The complete step sequence of a fully successful run. -/
def fullTrace : List Step :=
  [Step.engine, Step.loadLand, Step.loadWater, Step.transform,
   Step.saveDb, Step.saveCsv]

/-- The arguments of `main` (src/main.py line 105). -/
structure MainArgs where
  land_use_table : String
  watercourses_table : String
  buffer_distance : Int
  output_table_name : String
  output_csv_file : String
deriving DecidableEq

deriving instance DecidableEq for Except

/-- Environmental outcomes of the library calls that can fail for reasons
outside the database contents: engine creation, the database write, the file
write. -/
structure Oracles where
  createEngine : Except PyExc Engine
  dbWrite : Except PyExc Unit
  csvWrite : Except PyExc Unit
deriving DecidableEq

/-- The final log line of `main`'s own handler (src/main.py line 131); its
`except Exception` clause is bound (builtin) and matches every exception, so
it always logs and re-raises unchanged. -/
def mainFailLog (e : PyExc) : LogEntry :=
  LogEntry.error ("Failed to complete the main function: " ++ excMsg e)

/-- The observable result of one run of `main`: which steps were started (in
order), the accumulated log, the final database state, the CSV file content
(if written) and the overall outcome. -/
structure RunResult (G : Type) where
  trace : List Step
  log : List LogEntry
  db : Database G
  csv : Option String
  outcome : Except PyExc Unit
deriving DecidableEq

/-- Embedding of `main` (src/main.py lines 105-132): create the engine, load
the land-use table, load the watercourses table, transform, save to
PostgreSQL, save to CSV — strictly in that order, each step only reached when
every earlier step succeeded; the first failure is logged once more by
`main`'s handler and re-raised. -/
def runMain (ops : GeomOps G) (o : Oracles) (db : Database G) (a : MainArgs) :
    RunResult G :=
  match get_engine o.createEngine with
  | (l1, .error e) =>
    ⟨[Step.engine], l1 ++ [mainFailLog e], db, none, .error e⟩
  | (l1, .ok _eng) =>
    match load_vector_layer db a.land_use_table with
    | (l2, .error e) =>
      ⟨[Step.engine, Step.loadLand], l1 ++ l2 ++ [mainFailLog e], db, none,
       .error e⟩
    | (l2, .ok land_use_gdf) =>
      match load_vector_layer db a.watercourses_table with
      | (l3, .error e) =>
        ⟨[Step.engine, Step.loadLand, Step.loadWater],
         l1 ++ l2 ++ l3 ++ [mainFailLog e], db, none, .error e⟩
      | (l3, .ok watercourses_gdf) =>
        let res := apply_buffer_and_intersect ops land_use_gdf
          watercourses_gdf a.buffer_distance
        let l4 := transformLogs land_use_gdf.crs watercourses_gdf.crs
        match save_geodataframe_to_postgresql res db a.output_table_name
            o.dbWrite with
        | (l5, .error e) =>
          ⟨[Step.engine, Step.loadLand, Step.loadWater, Step.transform,
            Step.saveDb],
           l1 ++ l2 ++ l3 ++ l4 ++ l5 ++ [mainFailLog e], db, none, .error e⟩
        | (l5, .ok db2) =>
          match save_geodataframe_to_csv ops res o.csvWrite with
          | (l6, .error e) =>
            ⟨fullTrace, l1 ++ l2 ++ l3 ++ l4 ++ l5 ++ l6 ++ [mainFailLog e],
             db2, none, .error e⟩
          | (l6, .ok csv) =>
            ⟨fullTrace, l1 ++ l2 ++ l3 ++ l4 ++ l5 ++ l6, db2, some csv,
             .ok ()⟩

/-! ## A concrete geometry instance

A computable rectilinear geometry: a geometry is a finite list of axis-aligned
closed rectangles with integer corners.  Degenerate rectangles (zero width or
zero height) model line-like, zero-area features.  Buffering a rectangle by
`d` under the Chebyshev metric expands each side by `d`; intersection clips
rectangles pairwise; the overlay's surface test asks for some rectangle of
positive area.  This instance is only used to evaluate the generic theorems on
concrete inputs. -/

/-- An axis-aligned rectangle `[x1, x2] × [y1, y2]` (degenerate when a pair of
opposite sides coincides). -/
structure Rect where
  x1 : Int
  y1 : Int
  x2 : Int
  y2 : Int
deriving DecidableEq

/-- A rectilinear geometry: a finite union of rectangles. -/
abbrev RectGeom := List Rect

/-- Chebyshev buffering of one rectangle. -/
def rectBuffer (d : Int) (r : Rect) : Rect :=
  ⟨r.x1 - d, r.y1 - d, r.x2 + d, r.y2 + d⟩

/-- Clip two rectangles; `none` when they do not meet. -/
def rectClip (a b : Rect) : Option Rect :=
  if max a.x1 b.x1 ≤ min a.x2 b.x2 ∧ max a.y1 b.y1 ≤ min a.y2 b.y2 then
    some ⟨max a.x1 b.x1, max a.y1 b.y1, min a.x2 b.x2, min a.y2 b.y2⟩
  else none

/-- Positive-area test for one rectangle. -/
def rectHasArea (r : Rect) : Bool :=
  decide (r.x1 < r.x2 ∧ r.y1 < r.y2)

/-- Text form of one rectangle, for the CSV serialization. -/
def rectText (r : Rect) : String :=
  "(" ++ toString r.x1 ++ " " ++ toString r.y1 ++ " " ++
    toString r.x2 ++ " " ++ toString r.y2 ++ ")"

/-- The concrete `GeomOps` instance on rectilinear geometries.  Reprojection
is modelled as the translation by the target CRS code (any injective
transformation serves; only its structural behaviour matters). -/
def rectOps : GeomOps RectGeom where
  toCrs := fun c g =>
    g.map (fun r => ⟨r.x1 + (c.getD 0 : Int), r.y1 + (c.getD 0 : Int),
                     r.x2 + (c.getD 0 : Int), r.y2 + (c.getD 0 : Int)⟩)
  buffer := fun d g => g.map (rectBuffer d)
  inter := fun a b => a.flatMap (fun ra => b.filterMap (rectClip ra))
  hasArea := fun g => g.any rectHasArea
  wkt := fun g => String.intercalate ";" (g.map rectText)

/-! ## Concrete example data

Small concrete layers, used to evaluate the generic theorems. -/

/-- Example land-use layer: one 10x10 polygon with a landuse attribute. -/
def exLand : GeoDataFrame RectGeom :=
  ⟨["landuse"], [(["farm"], [⟨0, 0, 10, 10⟩])], some 1⟩

/-- Example watercourses layer, same CRS as `exLand`, one record with a
wname attribute. -/
def exWater : GeoDataFrame RectGeom :=
  ⟨["wname"], [(["creek"], [⟨2, 2, 4, 4⟩])], some 1⟩

/-- Example watercourses layer in a different CRS. -/
def exWaterOtherCrs : GeoDataFrame RectGeom :=
  ⟨["wname"], [(["creek"], [⟨2, 2, 4, 4⟩])], some 2⟩

/-- Example zero-width (line-like) watercourses layer: a vertical segment. -/
def exWaterLine : GeoDataFrame RectGeom :=
  ⟨["wname"], [(["creek"], [⟨3, 0, 3, 10⟩])], some 1⟩

/-- A pre-existing output table with a different schema, to be overwritten. -/
def exPrevTable : GeoDataFrame RectGeom :=
  ⟨["old_col", "other_col"], [(["a", "b"], [⟨0, 0, 1, 1⟩])], some 7⟩

/-- An example database holding the two input tables and a stale output
table whose schema differs from the result's. -/
def exDb : Database RectGeom :=
  ⟨[("landuse_results", exPrevTable), ("landuse_10km", exLand),
    ("rivers_10km", exWater)]⟩

/-- The constant arguments of the entry point (src/main.py lines 136-141). -/
def exArgs : MainArgs :=
  ⟨"landuse_10km", "rivers_10km", 50, "landuse_results",
   "filtered_land_use_results.csv"⟩

/-- An all-successful environment. -/
def exOracles : Oracles := ⟨.ok ⟨"postgresql"⟩, .ok (), .ok ()⟩

/-- An environment whose database write fails. -/
def exOraclesDbFail : Oracles :=
  ⟨.ok ⟨"postgresql"⟩, .error (.sqlalchemy "server closed the connection"), .ok ()⟩

/-! ## Helper lemmas -/

/-- The name `SQLAlchemyError` does not resolve in the module. -/
theorem nameBound_sqlalchemy : nameBound "SQLAlchemyError" = false := by decide

/-- The builtin name `Exception` resolves. -/
theorem nameBound_exception : nameBound "Exception" = true := by decide

/-- The builtin name `IOError` resolves. -/
theorem nameBound_ioerror : nameBound "IOError" = true := by decide

/-- On a failed `create_engine` call, the broken handler of `get_engine`
raises `NameError` and logs nothing. -/
theorem get_engine_err (e : PyExc) :
    get_engine (.error e) = ([], .error (.nameError "SQLAlchemyError")) := by
  simp [get_engine, tryLogReraise, nameBound_sqlalchemy]

/-- On a successful `create_engine` call, `get_engine` logs and returns. -/
theorem get_engine_ok (eng : Engine) :
    get_engine (.ok eng) =
      ([LogEntry.info "Database engine created successfully."], .ok eng) := rfl

/-- Loading an existing table succeeds with the success log line. -/
theorem load_vector_layer_found {db : Database G} {t : String}
    {g : GeoDataFrame G} (h : dbLookup db t = some g) :
    load_vector_layer db t =
      ([LogEntry.info ("Loaded vector layer " ++ t ++ " successfully.")],
       .ok g) := by
  simp [load_vector_layer, tryLogReraise, read_postgis, h]

/-- Loading a missing table logs the failure and re-raises the query error
unchanged (the `Exception` class is bound and matches). -/
theorem load_vector_layer_missing {db : Database G} {t : String}
    (h : dbLookup db t = none) :
    load_vector_layer db t =
      ([LogEntry.error ("Failed to load vector layer " ++ t ++ ": " ++
          ("relation " ++ t ++ " does not exist"))],
       .error (.sqlalchemy ("relation " ++ t ++ " does not exist"))) := by
  simp [load_vector_layer, tryLogReraise, read_postgis, h, nameBound_exception,
    isExceptionSub, excMsg]

/-- A successful database write replaces the table and logs. -/
theorem save_pg_ok (gdf : GeoDataFrame G) (db : Database G) (t : String) :
    save_geodataframe_to_postgresql gdf db t (.ok ()) =
      ([LogEntry.info ("Data saved to PostgreSQL table: " ++ t)],
       .ok (to_postgis gdf db t)) := rfl

/-- On a failed database write, the broken handler raises `NameError` and
logs nothing. -/
theorem save_pg_err (gdf : GeoDataFrame G) (db : Database G) (t : String)
    (e : PyExc) :
    save_geodataframe_to_postgresql gdf db t (.error e) =
      ([], .error (.nameError "SQLAlchemyError")) := by
  simp [save_geodataframe_to_postgresql, tryLogReraise, nameBound_sqlalchemy,
    Except.map]

/-- A successful CSV write returns the serialized content and logs. -/
theorem save_csv_ok (ops : GeomOps G) (gdf : GeoDataFrame G) :
    save_geodataframe_to_csv ops gdf (.ok ()) =
      ([LogEntry.info "Data saved to CSV file."], .ok (csvString ops gdf)) := rfl

/-- A failed CSV write re-raises the original exception unchanged; the step
logs it exactly when it is an `IOError`. -/
theorem save_csv_err (ops : GeomOps G) (gdf : GeoDataFrame G) (e : PyExc) :
    save_geodataframe_to_csv ops gdf (.error e) =
      ((if isIOErr e then
          [LogEntry.error ("Failed to save GeoDataFrame to CSV: " ++ excMsg e)]
        else []), .error e) := by
  simp only [save_geodataframe_to_csv, tryLogReraise, Except.map,
    nameBound_ioerror, if_true]
  cases h : isIOErr e <;> simp [h]

/-- Looking up the freshly written table returns exactly the written frame. -/
theorem dbLookup_to_postgis_self (gdf : GeoDataFrame G) (db : Database G)
    (t : String) : dbLookup (to_postgis gdf db t) t = some gdf := by
  simp [dbLookup, to_postgis, List.find?]

/-- Filtering out one key leaves `find?` for any other key unchanged. -/
theorem find?_filter_other {l : List (String × GeoDataFrame G)} {t m : String}
    (h : m ≠ t) :
    (l.filter (fun p => !(p.1 == t))).find? (fun p => p.1 == m) =
      l.find? (fun p => p.1 == m) := by
  have htm : (t == m) = false := by
    simp
    exact fun hc => h hc.symm
  induction l with
  | nil => rfl
  | cons x l ih =>
    by_cases hx : x.1 = t
    · simp [List.filter_cons, hx, List.find?_cons, htm, ih]
    · by_cases hxm : x.1 = m
      · simp [List.filter_cons, hx, List.find?_cons, hxm, htm, h, ih]
      · simp [List.filter_cons, hx, List.find?_cons, hxm, ih]

/-- Replacing one table leaves every other table unchanged. -/
theorem dbLookup_to_postgis_other (gdf : GeoDataFrame G) (db : Database G)
    {t m : String} (h : m ≠ t) :
    dbLookup (to_postgis gdf db t) m = dbLookup db m := by
  have hm : (t == m) = false := by
    simp
    exact fun hc => h hc.symm
  simp [dbLookup, to_postgis, List.find?_cons, hm, find?_filter_other h]

/-- Writing the same frame to the same table twice is the same as writing it
once. -/
theorem to_postgis_idem (gdf : GeoDataFrame G) (db : Database G) (t : String) :
    to_postgis gdf (to_postgis gdf db t) t = to_postgis gdf db t := by
  simp [to_postgis, List.filter_cons, List.filter_filter]

/-- No suffixing happens against an empty column list. -/
theorem suffixIfShared_nil (tag c : String) : suffixIfShared [] tag c = c := rfl

/-- The overlay against an attribute-free frame keeps exactly the first
frame's columns. -/
theorem overlayCols_nil_right (ca : List String) : overlayCols ca [] = ca := by
  simp only [overlayCols, List.map_nil, List.append_nil]
  exact List.map_id'' (fun c => suffixIfShared_nil "_1" c) ca

/-! ## Rectilinear-geometry lemmas -/

/-- Chebyshev buffering by 0 is the identity on one rectangle. -/
theorem rectBuffer_zero (r : Rect) : rectBuffer 0 r = r := by
  cases r; simp [rectBuffer]

/-- Buffering a rectilinear geometry by 0 is the identity. -/
theorem rectOps_buffer_zero (g : RectGeom) : rectOps.buffer 0 g = g := by
  show g.map (rectBuffer 0) = g
  induction g with
  | nil => rfl
  | cons r t ih => simp [rectBuffer_zero, ih]

/-- A rectangle is zero-area when a pair of opposite sides coincides. -/
def zeroArea (r : Rect) : Prop := r.x1 = r.x2 ∨ r.y1 = r.y2

instance (r : Rect) : Decidable (zeroArea r) := by
  unfold zeroArea; infer_instance

/-- Clipping against a zero-area rectangle never yields positive area. -/
theorem rectClip_zeroArea {a b r : Rect} (hb : zeroArea b)
    (h : rectClip a b = some r) : rectHasArea r = false := by
  unfold rectClip at h
  split at h
  · cases h
    rcases hb with hb | hb
    · have hx : ¬ (max a.x1 b.x1 < min a.x2 b.x2) := by
        have h1 : b.x1 ≤ max a.x1 b.x1 := le_max_right _ _
        have h2 : min a.x2 b.x2 ≤ b.x2 := min_le_right _ _
        omega
      simp [rectHasArea]
      intro hlt
      omega
    · have h1 : b.y1 ≤ max a.y1 b.y1 := le_max_right _ _
      have h2 : min a.y2 b.y2 ≤ b.y2 := min_le_right _ _
      simp [rectHasArea]
      intro hlt
      omega
  · cases h

/-- Intersecting anything with an all-zero-area geometry fails the overlay's
surface test. -/
theorem rectOps_inter_zeroArea (ga gb : RectGeom)
    (hb : ∀ q ∈ gb, zeroArea q) :
    rectOps.hasArea (rectOps.inter ga gb) = false := by
  show (ga.flatMap (fun ra => gb.filterMap (rectClip ra))).any rectHasArea = false
  rw [List.any_eq_false]
  intro r hr
  rw [List.mem_flatMap] at hr
  rcases hr with ⟨ra, _, hr⟩
  rw [List.mem_filterMap] at hr
  rcases hr with ⟨b, hbmem, hclip⟩
  simp [rectClip_zeroArea (hb b hbmem) hclip]

/-- The modelled reprojection (a translation) preserves zero-area. -/
theorem rectOps_toCrs_zeroArea (c : Option Nat) (g : RectGeom)
    (hg : ∀ q ∈ g, zeroArea q) : ∀ q ∈ rectOps.toCrs c g, zeroArea q := by
  intro q hq
  have hmem : q ∈ g.map (fun r =>
      (⟨r.x1 + (c.getD 0 : Int), r.y1 + (c.getD 0 : Int),
        r.x2 + (c.getD 0 : Int), r.y2 + (c.getD 0 : Int)⟩ : Rect)) := hq
  rw [List.mem_map] at hmem
  rcases hmem with ⟨r, hr, rfl⟩
  rcases hg r hr with h | h
  · exact Or.inl (by simp [h])
  · exact Or.inr (by simp [h])

/-! ## Claims -/

/-- C1, counterexample: the intersection result does NOT carry the union of
both inputs' attribute fields.  On concrete layers where the watercourses
table has the attribute column `wname`, the transform's output has a record
but its columns are only the land-use columns: `wname` (suffixed or not) is
absent, because src/main.py line 66 rebuilds the buffered layer as a
geometry-only frame. -/
theorem c1_counterexample :
    (apply_buffer_and_intersect rectOps exLand exWater 1).rows ≠ [] ∧
    exWater.cols = ["wname"] ∧
    (apply_buffer_and_intersect rectOps exLand exWater 1).cols = ["landuse"] ∧
    ¬ ("wname" ∈ (apply_buffer_and_intersect rectOps exLand exWater 1).cols) ∧
    ¬ ("wname_2" ∈ (apply_buffer_and_intersect rectOps exLand exWater 1).cols) := by
  decide

/-- C1, amended: each record of the intersection result carries A's (the
land-use layer's) attribute fields only — B's attributes are dropped when the
buffered layer is rebuilt as a geometry-only frame, so no name collision or
suffixing can occur — and there is exactly one output record per pair (a, b)
whose geometric intersection of a with the buffered (CRS-adjusted) b is
non-empty, carrying a's attribute values and the intersected geometry. -/
theorem c1_one_record_per_intersecting_pair (ops : GeomOps G)
    (A B : GeoDataFrame G) (d : Int) :
    (apply_buffer_and_intersect ops A B d).cols = A.cols ∧
    (apply_buffer_and_intersect ops A B d).rows =
      A.rows.flatMap (fun ra =>
        (bufferSeries ops d (crsAdjust ops A.crs B)).filterMap (fun gb =>
          if ops.hasArea (ops.inter ra.2 gb) then
            some (ra.1, ops.inter ra.2 gb)
          else none)) := by
  constructor
  · simp [apply_buffer_and_intersect, overlayIntersection,
      geometryOnlyGdf, overlayCols_nil_right]
  · simp [apply_buffer_and_intersect, overlayIntersection, geometryOnlyGdf,
      List.filterMap_map, Function.comp_def]

/-- C4: the watercourses layer is reprojected exactly when the two CRS
differ: on a match the adjustment returns B itself (a no-op); on a mismatch it
returns B reprojected into A's CRS (its attributes untouched) — and the
transform always overlays the unmodified A against the buffered adjusted B,
so only B is ever changed. -/
theorem c4_reproject_iff_crs_differ (ops : GeomOps G)
    (A B : GeoDataFrame G) (d : Int) :
    (A.crs = B.crs → crsAdjust ops A.crs B = B) ∧
    (A.crs ≠ B.crs →
      crsAdjust ops A.crs B = gdfToCrs ops A.crs B ∧
      (crsAdjust ops A.crs B).crs = A.crs ∧
      (crsAdjust ops A.crs B).cols = B.cols) ∧
    apply_buffer_and_intersect ops A B d =
      overlayIntersection ops A
        (geometryOnlyGdf (bufferSeries ops d (crsAdjust ops A.crs B))
          A.crs) := by
  refine ⟨?_, ?_, rfl⟩
  · intro h
    simp [crsAdjust, h]
  · intro h
    simp [crsAdjust, h, gdfToCrs]

/-- Witness for C4 at concrete inputs: with matching CRS the adjustment is a
no-op, with differing CRS it is the reprojection into the land-use CRS. -/
theorem c4_witness :
    crsAdjust rectOps exLand.crs exWater = exWater ∧
    crsAdjust rectOps exLand.crs exWaterOtherCrs =
      gdfToCrs rectOps exLand.crs exWaterOtherCrs := by
  refine ⟨(c4_reproject_iff_crs_differ rectOps exLand exWater 0).1 rfl, ?_⟩
  exact ((c4_reproject_iff_crs_differ rectOps exLand exWaterOtherCrs 0).2.1
    (by decide)).1

/-- C5: the buffer step maps the buffer operation over B's records
independently: the series has exactly one geometry per original record, and
the i-th output is the buffer of the i-th input geometry (same order, no
dissolve or union of overlapping buffers). -/
theorem c5_buffer_pointwise (ops : GeomOps G) (d : Int)
    (w : GeoDataFrame G) :
    (bufferSeries ops d w).length = w.rows.length ∧
    ∀ i : Nat, (bufferSeries ops d w)[i]? =
      (w.rows[i]?).map (fun r => ops.buffer d r.2) := by
  constructor
  · simp [bufferSeries]
  · intro i
    simp [bufferSeries]

/-- C6: with buffer distance 0 the transform does not fail and degrades to
the unbuffered geometries (buffering by 0 is the identity), and when every
watercourse geometry is zero-width the polygonal intersections are all empty,
so the result is an empty but well-formed collection (land-use columns and
CRS, no records). -/
theorem c6_zero_buffer_degrades (A B : GeoDataFrame RectGeom)
    (hB : ∀ r ∈ B.rows, ∀ q ∈ r.2, zeroArea q) :
    bufferSeries rectOps 0 (crsAdjust rectOps A.crs B) =
      (crsAdjust rectOps A.crs B).rows.map (fun r => r.2) ∧
    (apply_buffer_and_intersect rectOps A B 0).rows = [] ∧
    (apply_buffer_and_intersect rectOps A B 0).cols = A.cols ∧
    (apply_buffer_and_intersect rectOps A B 0).crs = A.crs := by
  have hAdj : ∀ r ∈ (crsAdjust rectOps A.crs B).rows, ∀ q ∈ r.2, zeroArea q := by
    intro r hr
    unfold crsAdjust at hr
    split at hr
    · simp only [gdfToCrs, List.mem_map] at hr
      rcases hr with ⟨b, hb, rfl⟩
      exact rectOps_toCrs_zeroArea A.crs b.2 (hB b hb)
    · exact hB r hr
  have hbuf : bufferSeries rectOps 0 (crsAdjust rectOps A.crs B) =
      (crsAdjust rectOps A.crs B).rows.map (fun r => r.2) := by
    unfold bufferSeries
    exact List.map_congr_left (fun r _ => rectOps_buffer_zero r.2)
  refine ⟨hbuf, ?_, ?_, rfl⟩
  · simp only [apply_buffer_and_intersect, overlayIntersection,
      geometryOnlyGdf, hbuf]
    rw [List.flatMap_eq_nil_iff]
    intro ra _
    rw [List.filterMap_eq_nil_iff]
    intro rb hrb
    rw [List.mem_map] at hrb
    rcases hrb with ⟨g, hg, rfl⟩
    rw [List.mem_map] at hg
    rcases hg with ⟨r, hr, rfl⟩
    simp [rectOps_inter_zeroArea ra.2 r.2 (hAdj r hr)]
  · simp [apply_buffer_and_intersect, overlayIntersection,
      geometryOnlyGdf, overlayCols_nil_right]

/-- Witness for C6: on the concrete zero-width watercourse layer, a
zero-distance buffer yields an empty, well-formed result instead of an
error. -/
theorem c6_witness :
    (apply_buffer_and_intersect rectOps exLand exWaterLine 0).rows = [] ∧
    (apply_buffer_and_intersect rectOps exLand exWaterLine 0).cols =
      exLand.cols :=
  ⟨(c6_zero_buffer_degrades exLand exWaterLine (by decide)).2.1,
   (c6_zero_buffer_degrades exLand exWaterLine (by decide)).2.2.1⟩

/-- C7: the database writer unconditionally replaces the destination table:
for every prior database state (whatever a same-named table held) the write
succeeds, logs, returns the updated database in which the destination table
is exactly the written collection, and every other table is untouched. -/
theorem c7_replace_table (gdf : GeoDataFrame G) (db : Database G)
    (t : String) :
    save_geodataframe_to_postgresql gdf db t (.ok ()) =
      ([LogEntry.info ("Data saved to PostgreSQL table: " ++ t)],
       .ok (to_postgis gdf db t)) ∧
    dbLookup (to_postgis gdf db t) t = some gdf ∧
    ∀ m, m ≠ t → dbLookup (to_postgis gdf db t) m = dbLookup db m := by
  refine ⟨rfl, dbLookup_to_postgis_self gdf db t, ?_⟩
  intro m hm
  exact dbLookup_to_postgis_other gdf db hm

/-- Witness for C7 on a database whose stale `landuse_results` table has a
different schema: the write replaces it with the new frame and leaves the
input tables alone. -/
theorem c7_witness :
    dbLookup (to_postgis exLand exDb "landuse_results") "landuse_results" =
      some exLand ∧
    dbLookup (to_postgis exLand exDb "landuse_results") "rivers_10km" =
      dbLookup exDb "rivers_10km" :=
  ⟨(c7_replace_table exLand exDb "landuse_results").2.1,
   (c7_replace_table exLand exDb "landuse_results").2.2 "rivers_10km"
     (by decide)⟩

/-- C2, code bug: the database-writer step does not log-and-reraise.  When
the `to_postgis` call raises a SQLAlchemy error, the except clause at
src/main.py line 87 evaluates the unbound name `SQLAlchemyError` (never
imported), so the handler raises `NameError`, the original exception is
replaced, and no log entry is written — contradicting the log-then-reraise
policy the step's own handler body expresses. -/
theorem c2_save_handler_nameerror :
    save_geodataframe_to_postgresql exLand exDb "landuse_results"
        (.error (.sqlalchemy "server closed the connection")) =
      ([], .error (.nameError "SQLAlchemyError")) ∧
    nameBound "SQLAlchemyError" = false ∧
    PyExc.nameError "SQLAlchemyError" ≠
      PyExc.sqlalchemy "server closed the connection" := by
  refine ⟨?_, nameBound_sqlalchemy, by decide⟩
  exact save_pg_err exLand exDb "landuse_results"
    (.sqlalchemy "server closed the connection")

/-- C3, code bug: when `create_engine` fails (e.g. on a malformed connection
string), `get_engine` neither logs the failure nor re-raises it: the except
clause at src/main.py line 25 evaluates the unbound name `SQLAlchemyError`,
so a `NameError` replaces the original connection error and nothing is
logged. -/
theorem c3_engine_handler_nameerror :
    get_engine (.error (.sqlalchemy "Could not parse SQLAlchemy URL")) =
      ([], .error (.nameError "SQLAlchemyError")) ∧
    PyExc.nameError "SQLAlchemyError" ≠
      PyExc.sqlalchemy "Could not parse SQLAlchemy URL" := by
  exact ⟨get_engine_err _, by decide⟩

/-- C10: the transform's result always carries the land-use layer's CRS —
the buffered watercourse frame is built with A's CRS and the overlay result
inherits it, so no output ever carries B's original CRS. -/
theorem c10_result_crs_is_land_use_crs (ops : GeomOps G)
    (A B : GeoDataFrame G) (d : Int) :
    (apply_buffer_and_intersect ops A B d).crs = A.crs := rfl

/-- C8: the orchestrator runs the six steps in the fixed linear order of
`fullTrace`; the executed steps always form a prefix of that order; a fully
successful run executes them all, handing the same result collection (the
transform of the two loaded tables) first to the database writer and then to
the CSV writer; a database-write failure means the CSV step never starts and
no file is written; and any failure ends the log with `main`'s final error
line for the raised exception, with no CSV output. -/
theorem c8_linear_order_first_failure_aborts (ops : GeomOps G) (o : Oracles)
    (db : Database G) (a : MainArgs) :
    (runMain ops o db a).trace =
      fullTrace.take (runMain ops o db a).trace.length ∧
    ((runMain ops o db a).outcome = .ok () →
      (runMain ops o db a).trace = fullTrace) ∧
    (∀ L W, dbLookup db a.land_use_table = some L →
      dbLookup db a.watercourses_table = some W →
      (runMain ops o db a).outcome = .ok () →
      (runMain ops o db a).db =
        to_postgis (apply_buffer_and_intersect ops L W a.buffer_distance) db
          a.output_table_name ∧
      (runMain ops o db a).csv =
        some (csvString ops
          (apply_buffer_and_intersect ops L W a.buffer_distance))) ∧
    (∀ e, o.dbWrite = .error e →
      Step.saveCsv ∉ (runMain ops o db a).trace ∧
      (runMain ops o db a).csv = none) ∧
    (∀ e, (runMain ops o db a).outcome = .error e →
      (runMain ops o db a).log.getLast? = some (mainFailLog e) ∧
      (runMain ops o db a).csv = none) := by
  obtain ⟨ce, dbw, csvw⟩ := o
  cases ce with
  | error e0 =>
    simp only [runMain, get_engine_err]
    refine ⟨by decide, by simp, by simp, ?_, ?_⟩
    · intro e _
      exact ⟨by decide, by trivial⟩
    · intro e he
      cases he
      simp
  | ok eng =>
    cases hL : dbLookup db a.land_use_table with
    | none =>
      simp only [runMain, get_engine_ok, load_vector_layer_missing hL]
      refine ⟨by decide, by simp, ?_, ?_, ?_⟩
      · intro L W hL2 _ _
        simp at hL2
      · intro e _
        exact ⟨by decide, by trivial⟩
      · intro e he
        cases he
        simp
    | some L =>
      cases hW : dbLookup db a.watercourses_table with
      | none =>
        simp only [runMain, get_engine_ok, load_vector_layer_found hL,
          load_vector_layer_missing hW]
        refine ⟨by decide, by simp, ?_, ?_, ?_⟩
        · intro L2 W2 _ hW2 _
          simp at hW2
        · intro e _
          exact ⟨by decide, by trivial⟩
        · intro e he
          cases he
          simp
      | some W =>
        cases dbw with
        | error e1 =>
          simp only [runMain, get_engine_ok, load_vector_layer_found hL,
            load_vector_layer_found hW, save_pg_err]
          refine ⟨by decide, by simp, by simp, ?_, ?_⟩
          · intro e _
            exact ⟨by decide, by trivial⟩
          · intro e he
            cases he
            simp [List.getLast?_cons, List.getLast?_append]
        | ok u =>
          cases u
          cases csvw with
          | error e2 =>
            simp only [runMain, get_engine_ok, load_vector_layer_found hL,
              load_vector_layer_found hW, save_pg_ok, save_csv_err]
            refine ⟨by decide, by simp, by simp, ?_, ?_⟩
            · intro e he
              cases he
            · intro e he
              cases he
              simp [List.getLast?_cons, List.getLast?_append]
          | ok u2 =>
            cases u2
            simp only [runMain, get_engine_ok, load_vector_layer_found hL,
              load_vector_layer_found hW, save_pg_ok, save_csv_ok]
            refine ⟨by decide, by simp, ?_, ?_, by simp⟩
            · intro L2 W2 hL2 hW2 _
              cases hL2
              cases hW2
              exact ⟨rfl, rfl⟩
            · intro e he
              cases he

/-- Witness for C8 at concrete inputs: a successful run hands the transform
result to the database first and then to the CSV writer, and a run whose
database write fails never starts the CSV step and writes no file. -/
theorem c8_witness :
    ((runMain rectOps exOracles exDb exArgs).db =
      to_postgis (apply_buffer_and_intersect rectOps exLand exWater 50) exDb
        "landuse_results" ∧
     (runMain rectOps exOracles exDb exArgs).csv =
      some (csvString rectOps
        (apply_buffer_and_intersect rectOps exLand exWater 50))) ∧
    Step.saveCsv ∉ (runMain rectOps exOraclesDbFail exDb exArgs).trace ∧
    (runMain rectOps exOraclesDbFail exDb exArgs).csv = none := by
  refine ⟨?_, ?_⟩
  · have h := (c8_linear_order_first_failure_aborts rectOps exOracles exDb
      exArgs).2.2.1 exLand exWater (by decide) (by decide) (by decide)
    exact h
  · exact (c8_linear_order_first_failure_aborts rectOps exOraclesDbFail exDb
      exArgs).2.2.2.1 (.sqlalchemy "server closed the connection") rfl

/-- C9: the pipeline is deterministic in its inputs (it is a function of the
database state and the environmental outcomes), and running it a second time
on the database produced by a successful first run — with the input tables
unchanged, i.e. with input table names distinct from the output table name —
reproduces the first run exactly: same step trace, same log, same result
collection, an output table identical to the first run's (replace semantics)
and byte-for-byte identical CSV content. -/
theorem c9_second_run_reproduces_first (ops : GeomOps G) (o : Oracles)
    (db : Database G) (a : MainArgs)
    (h1 : a.land_use_table ≠ a.output_table_name)
    (h2 : a.watercourses_table ≠ a.output_table_name)
    (h3 : (runMain ops o db a).outcome = .ok ()) :
    runMain ops o (runMain ops o db a).db a = runMain ops o db a := by
  obtain ⟨ce, dbw, csvw⟩ := o
  cases ce with
  | error e0 =>
    simp [runMain, get_engine_err] at h3
  | ok eng =>
    cases hL : dbLookup db a.land_use_table with
    | none =>
      simp [runMain, get_engine_ok, load_vector_layer_missing hL] at h3
    | some L =>
      cases hW : dbLookup db a.watercourses_table with
      | none =>
        simp [runMain, get_engine_ok, load_vector_layer_found hL,
          load_vector_layer_missing hW] at h3
      | some W =>
        cases dbw with
        | error e1 =>
          simp [runMain, get_engine_ok, load_vector_layer_found hL,
            load_vector_layer_found hW, save_pg_err] at h3
        | ok u =>
          cases u
          cases csvw with
          | error e2 =>
            simp [runMain, get_engine_ok, load_vector_layer_found hL,
              load_vector_layer_found hW, save_pg_ok, save_csv_err] at h3
          | ok u2 =>
            cases u2
            have hL2 : dbLookup
                (to_postgis (apply_buffer_and_intersect ops L W
                  a.buffer_distance) db a.output_table_name)
                a.land_use_table = some L := by
              rw [dbLookup_to_postgis_other _ _ h1]
              exact hL
            have hW2 : dbLookup
                (to_postgis (apply_buffer_and_intersect ops L W
                  a.buffer_distance) db a.output_table_name)
                a.watercourses_table = some W := by
              rw [dbLookup_to_postgis_other _ _ h2]
              exact hW
            simp only [runMain, get_engine_ok, load_vector_layer_found hL,
              load_vector_layer_found hW, save_pg_ok, save_csv_ok,
              load_vector_layer_found hL2, load_vector_layer_found hW2]
            simp [to_postgis_idem]

/-- Witness for C9: on the concrete database and the entry point's constant
arguments, a second run over the first run's database reproduces the first
run exactly. -/
theorem c9_witness :
    runMain rectOps exOracles (runMain rectOps exOracles exDb exArgs).db
      exArgs = runMain rectOps exOracles exDb exArgs :=
  c9_second_run_reproduces_first rectOps exOracles exDb exArgs (by decide)
    (by decide) (by decide)

end SpatialPipeline
